import Mathlib

/-
Shallow embedding of the osmp audio core (src/src-tauri/src/equalizer.rs and
src/src-tauri/src/audio.rs) and proofs about it.

Modelling conventions:
- Rust f32/f64 values are modelled as real numbers.
- The global atomics (SETTINGS_VERSION, VIS_LEVELS) and the RwLock-guarded
  EqualizerSettings are modelled as explicit parameters / explicit pieces of
  state threaded through the functions that read or write them; lock
  acquisition is assumed to succeed (the code's lock-poisoning fallbacks are
  unreachable in this model).
- The inner rodio decoder source is modelled by passing its outputs in:
  the pulled sample arrives as an `Option ℝ` argument, and the inner seek
  outcome as an `Except SeekError Unit` argument.
- Mutation of `&mut self` is modelled by returning the updated state.
-/

namespace Osmp

noncomputable section

/-- Number of analysis bands for the visualizer (`VIS_BAND_COUNT` in equalizer.rs). -/
def VIS_BAND_COUNT : ℕ := 10

/-- Analysis band center frequencies in Hz (`VIS_FREQUENCIES` in equalizer.rs). -/
def VIS_FREQUENCIES : Fin 10 → ℝ :=
  ![32, 64, 125, 250, 500, 1000, 2000, 4000, 8000, 16000]

/-- Filter type of one equalizer band (`FilterType` in equalizer.rs). -/
inductive FilterType where
  | LowShelf
  | Peaking
  | HighShelf

/-- Settings of one equalizer band (`BandSettings` in equalizer.rs). -/
structure BandSettings where
  frequency : ℝ
  gain_db : ℝ
  q : ℝ
  filter_type : FilterType
  label : String

/-- 5-band parametric equalizer settings (`EqualizerSettings` in equalizer.rs).
The Rust `[BandSettings; 5]` array is modelled as a function from `Fin 5`. -/
structure EqualizerSettings where
  enabled : Bool
  preamp_db : ℝ
  bands : Fin 5 → BandSettings
  preset_name : String

/-- The `Default` impl for `EqualizerSettings` in equalizer.rs. -/
def EqualizerSettings.default : EqualizerSettings :=
  { enabled := true
    preamp_db := 0
    bands :=
      ![{ frequency := 60, gain_db := 0, q := 0.707,
          filter_type := FilterType.LowShelf, label := "60Hz" },
        { frequency := 250, gain_db := 0, q := 1,
          filter_type := FilterType.Peaking, label := "250Hz" },
        { frequency := 1000, gain_db := 0, q := 1,
          filter_type := FilterType.Peaking, label := "1kHz" },
        { frequency := 4000, gain_db := 0, q := 1,
          filter_type := FilterType.Peaking, label := "4kHz" },
        { frequency := 16000, gain_db := 0, q := 0.707,
          filter_type := FilterType.HighShelf, label := "16kHz" }]
    preset_name := "Flat" }

/-- Biquad filter coefficients, a0-normalized (`BiquadCoeffs` in equalizer.rs). -/
structure BiquadCoeffs where
  b0 : ℝ
  b1 : ℝ
  b2 : ℝ
  a1 : ℝ
  a2 : ℝ

/-- `BiquadCoeffs::compute` in equalizer.rs: the audio-cookbook coefficient
formulas for low-shelf / peaking / high-shelf filters, normalized by a0. -/
def BiquadCoeffs.compute (band : BandSettings) (sample_rate : ℝ) : BiquadCoeffs :=
  let freq := band.frequency
  let gain_db := band.gain_db
  let q := band.q
  let sr := sample_rate
  let a : ℝ := (10 : ℝ) ^ (gain_db / 40)
  let w0 := 2 * Real.pi * freq / sr
  let cos_w0 := Real.cos w0
  let sin_w0 := Real.sin w0
  let alpha := sin_w0 / (2 * q)
  let raw : ℝ × ℝ × ℝ × ℝ × ℝ × ℝ :=
    match band.filter_type with
    | FilterType.LowShelf =>
      let two_sqrt_a_alpha := 2 * Real.sqrt a * alpha
      (a * ((a + 1) - (a - 1) * cos_w0 + two_sqrt_a_alpha),
       2 * a * ((a - 1) - (a + 1) * cos_w0),
       a * ((a + 1) - (a - 1) * cos_w0 - two_sqrt_a_alpha),
       (a + 1) + (a - 1) * cos_w0 + two_sqrt_a_alpha,
       -2 * ((a - 1) + (a + 1) * cos_w0),
       (a + 1) + (a - 1) * cos_w0 - two_sqrt_a_alpha)
    | FilterType.Peaking =>
      (1 + alpha * a,
       -2 * cos_w0,
       1 - alpha * a,
       1 + alpha / a,
       -2 * cos_w0,
       1 - alpha / a)
    | FilterType.HighShelf =>
      let two_sqrt_a_alpha := 2 * Real.sqrt a * alpha
      (a * ((a + 1) + (a - 1) * cos_w0 + two_sqrt_a_alpha),
       -2 * a * ((a - 1) + (a + 1) * cos_w0),
       a * ((a + 1) + (a - 1) * cos_w0 - two_sqrt_a_alpha),
       (a + 1) - (a - 1) * cos_w0 + two_sqrt_a_alpha,
       2 * ((a - 1) - (a + 1) * cos_w0),
       (a + 1) - (a - 1) * cos_w0 - two_sqrt_a_alpha)
  match raw with
  | (b0, b1, b2, a0, a1, a2) =>
    { b0 := b0 / a0, b1 := b1 / a0, b2 := b2 / a0, a1 := a1 / a0, a2 := a2 / a0 }

/-- `BiquadCoeffs::identity` in equalizer.rs: the pass-through biquad. -/
def BiquadCoeffs.identity : BiquadCoeffs :=
  { b0 := 1, b1 := 0, b2 := 0, a1 := 0, a2 := 0 }

/-- `BiquadCoeffs::bandpass` in equalizer.rs: bandpass coefficients used by the
visualizer analysis bands. -/
def BiquadCoeffs.bandpass (freq q sample_rate : ℝ) : BiquadCoeffs :=
  let w0 := 2 * Real.pi * freq / sample_rate
  let cos_w0 := Real.cos w0
  let sin_w0 := Real.sin w0
  let alpha := sin_w0 / (2 * q)
  let b0 := alpha
  let b1 : ℝ := 0
  let b2 := -alpha
  let a0 := 1 + alpha
  let a1 := -2 * cos_w0
  let a2 := 1 - alpha
  { b0 := b0 / a0, b1 := b1 / a0, b2 := b2 / a0, a1 := a1 / a0, a2 := a2 / a0 }

/-- Per-channel filter memory for one biquad (`BiquadState` in equalizer.rs). -/
structure BiquadState where
  x1 : ℝ
  x2 : ℝ
  y1 : ℝ
  y2 : ℝ

/-- The all-zero filter memory (`BiquadState::default()` in equalizer.rs). -/
def BiquadState.zero : BiquadState := { x1 := 0, x2 := 0, y1 := 0, y2 := 0 }

/-- `BiquadState::process` in equalizer.rs: one direct-form-1 biquad step.
Returns the output sample together with the updated memory. -/
def BiquadState.process (st : BiquadState) (coeffs : BiquadCoeffs) (input : ℝ) :
    ℝ × BiquadState :=
  let output := coeffs.b0 * input + coeffs.b1 * st.x1 + coeffs.b2 * st.x2
    - coeffs.a1 * st.y1 - coeffs.a2 * st.y2
  (output, { x1 := input, x2 := st.x1, y1 := output, y2 := st.y1 })

/-- The state of an `EqualizerSource` in equalizer.rs, minus the inner decoder
source and the settings handle (both are passed explicitly to the operations). -/
structure EqualizerSource where
  coeffs : Fin 5 → BiquadCoeffs
  states : Fin 2 → Fin 5 → BiquadState
  channels : ℕ
  sample_rate : ℕ
  current_channel : ℕ
  preamp_linear : ℝ
  last_checked_version : ℕ
  vis_coeffs : Fin 10 → BiquadCoeffs
  vis_states : Fin 2 → Fin 10 → BiquadState
  vis_energy : Fin 10 → ℝ
  vis_sample_count : ℕ
  vis_window_size : ℕ

/-- `EqualizerSource::compute_coefficients` in equalizer.rs: identity for every
band unless the EQ is enabled and the band gain is audibly nonzero. -/
def EqualizerSource.compute_coefficients (settings : EqualizerSettings)
    (sample_rate : ℕ) : Fin 5 → BiquadCoeffs :=
  fun i =>
    if settings.enabled = true ∧ |(settings.bands i).gain_db| > 0.01 then
      BiquadCoeffs.compute (settings.bands i) (sample_rate : ℝ)
    else
      BiquadCoeffs.identity

/-- `EqualizerSource::db_to_linear` in equalizer.rs. -/
def EqualizerSource.db_to_linear (db : ℝ) : ℝ :=
  (10 : ℝ) ^ (db / 20)

/-- `EqualizerSource::new` in equalizer.rs. `channels` and `sample_rate` come
from the wrapped source and `version` is the value of the global
SETTINGS_VERSION read at construction time. -/
def EqualizerSource.new (channels sample_rate : ℕ) (settings : EqualizerSettings)
    (version : ℕ) : EqualizerSource :=
  { coeffs := EqualizerSource.compute_coefficients settings sample_rate
    states := fun _ _ => BiquadState.zero
    channels := channels
    sample_rate := sample_rate
    current_channel := 0
    preamp_linear := EqualizerSource.db_to_linear settings.preamp_db
    last_checked_version := version
    vis_coeffs := fun i =>
      if VIS_FREQUENCIES i < (sample_rate : ℝ) / 2 then
        BiquadCoeffs.bandpass (VIS_FREQUENCIES i) 1.4 (sample_rate : ℝ)
      else
        BiquadCoeffs.identity
    vis_states := fun _ _ => BiquadState.zero
    vis_energy := fun _ => 0
    vis_sample_count := 0
    vis_window_size := ⌊(sample_rate : ℝ) * 0.046⌋₊ }

/-- `EqualizerSource::maybe_update_coefficients` in equalizer.rs. `settings` is
the RwLock contents (read assumed to succeed) and `version` the current value of
the global SETTINGS_VERSION. -/
def EqualizerSource.maybe_update_coefficients (settings : EqualizerSettings)
    (version : ℕ) (self : EqualizerSource) : EqualizerSource :=
  if version ≠ self.last_checked_version then
    let updated := { self with
      last_checked_version := version
      coeffs := EqualizerSource.compute_coefficients settings self.sample_rate
      preamp_linear := EqualizerSource.db_to_linear settings.preamp_db }
    if settings.enabled = false then
      { updated with states := fun _ _ => BiquadState.zero }
    else
      updated
  else
    self

/-- The cascade of the 5 band biquads from `EqualizerSource::next` in
equalizer.rs (the for-loop over `self.coeffs`), applied for the band indices in
`l` in order. Returns the final value and the updated per-band memory. -/
def runBands (coeffs : Fin 5 → BiquadCoeffs) :
    List (Fin 5) → (Fin 5 → BiquadState) → ℝ → ℝ × (Fin 5 → BiquadState)
  | [], sts, value => (value, sts)
  | i :: rest, sts, value =>
    let r := (sts i).process (coeffs i) value
    runBands coeffs rest (Function.update sts i r.2) r.1

/-- The soft-clip stage of `EqualizerSource::next` in equalizer.rs. -/
def softClip (value : ℝ) : ℝ :=
  if value > 1 then
    1 - Real.exp (-value + 1) * 0.5
  else if value < -1 then
    -1 + Real.exp (value + 1) * 0.5
  else
    value

/-- The visualizer-analysis block of `EqualizerSource::next` in equalizer.rs
(executed when `ch == 0`, so `channel_idx == 0`). `g` models the global
VIS_LEVELS atomics; the updated value of `g` is returned alongside the updated
source state. -/
def EqualizerSource.visAnalyze (self : EqualizerSource) (g : Fin 10 → ℝ)
    (input_value : ℝ) : EqualizerSource × (Fin 10 → ℝ) :=
  let filtered : Fin 10 → ℝ × BiquadState :=
    fun i => (self.vis_states 0 i).process (self.vis_coeffs i) input_value
  let self₁ := { self with
    vis_states := Function.update self.vis_states 0 (fun i => (filtered i).2)
    vis_energy := fun i => self.vis_energy i + (filtered i).1 * (filtered i).1
    vis_sample_count := self.vis_sample_count + 1 }
  if self₁.vis_sample_count ≥ self₁.vis_window_size then
    let inv_count := 1 / (self₁.vis_sample_count : ℝ)
    let levels : Fin 10 → ℝ :=
      fun i => min (Real.sqrt (self₁.vis_energy i * inv_count) * 8) 1
    ({ self₁ with vis_energy := fun _ => 0, vis_sample_count := 0 }, levels)
  else
    (self₁, g)

/-- `Iterator::next` for `EqualizerSource` in equalizer.rs. `settings` is the
RwLock contents, `version` the global SETTINGS_VERSION, `g` the global
VIS_LEVELS, and `sample` the result of pulling the inner source. Returns the
emitted item together with the updated source state and VIS_LEVELS. -/
def EqualizerSource.next (settings : EqualizerSettings) (version : ℕ)
    (self : EqualizerSource) (g : Fin 10 → ℝ) (sample : Option ℝ) :
    Option ℝ × EqualizerSource × (Fin 10 → ℝ) :=
  let self₀ :=
    if self.current_channel = 0 then
      EqualizerSource.maybe_update_coefficients settings version self
    else
      self
  match sample with
  | none => (none, self₀, g)
  | some sample =>
    let ch := self₀.current_channel
    let self₁ := { self₀ with current_channel := (ch + 1) % self₀.channels }
    let channel_idx : Fin 2 := ⟨min ch 1, by omega⟩
    let input_value := sample
    let vg :=
      if ch = 0 then EqualizerSource.visAnalyze self₁ g input_value
      else (self₁, g)
    let self₂ := vg.1
    let g₁ := vg.2
    if settings.enabled = false then
      (some sample, self₂, g₁)
    else
      let value := input_value * self₂.preamp_linear
      let r := runBands self₂.coeffs (List.finRange 5) (self₂.states channel_idx) value
      let self₃ := { self₂ with
        states := Function.update self₂.states channel_idx r.2 }
      (some (softClip r.1), self₃, g₁)

/-- The error type of the inner source's seek (rodio's SeekError, opaque here). -/
inductive SeekError where
  | err

/-- `Source::try_seek` for `EqualizerSource` in equalizer.rs. `inner` is the
outcome of `self.source.try_seek(pos)`; the `?` operator is modelled by the
error branch, which returns before any of the resets below it run. -/
def EqualizerSource.try_seek (self : EqualizerSource)
    (inner : Except SeekError Unit) : Except SeekError Unit × EqualizerSource :=
  match inner with
  | Except.error e => (Except.error e, self)
  | Except.ok _ =>
    (Except.ok (),
     { self with
       states := fun _ _ => BiquadState.zero
       current_channel := 0
       vis_states := fun _ _ => BiquadState.zero
       vis_energy := fun _ => 0
       vis_sample_count := 0 })

/-- `get_visualizer_levels` in equalizer.rs: reads the global VIS_LEVELS
atomics (here: the explicit `g` state). -/
def get_visualizer_levels (g : Fin 10 → ℝ) : Fin 10 → ℝ :=
  fun i => g i

/-- Commands sent to the audio thread (`AudioCommand` in audio.rs). -/
inductive AudioCommand where
  | Play (path : String)
  | Pause
  | Stop
  | SetVolume (volume : ℝ)
  | Seek (position_secs : ℝ)
  | SetSpeed (speed : ℝ)
  | PreloadNext (path : String)
  | SetEqBand (band : ℕ) (gain_db : ℝ)
  | SetEqEnabled (enabled : Bool)
  | SetEqPreset (bands : Fin 5 → ℝ) (preamp : ℝ) (name : String)
  | SetEqPreamp (preamp_db : ℝ)

/-- The observable part of a rodio `Sink` as the audio thread configures it:
its volume, its speed, and whether it is paused. -/
structure Sink where
  volume : ℝ
  speed : ℝ
  paused : Bool

/-- The full state owned or written by the audio thread in audio.rs: the local
variables of the thread closure (`current_sink`, `playback_start`,
`paused_position_ms`, `current_volume`, `current_speed`, `preloaded_path`),
the shared `AudioState` atomics (`is_playing`, `is_paused`, `position_ms`),
the RwLock-guarded `EqualizerSettings`, and the global SETTINGS_VERSION.
`Instant` values are modelled as natural-number timestamps. -/
structure AudioThread where
  current_sink : Option Sink
  playback_start : Option ℕ
  paused_position_ms : ℕ
  current_volume : ℝ
  current_speed : ℝ
  preloaded_path : Option String
  is_playing : Bool
  is_paused : Bool
  position_ms : ℕ
  eq_settings : EqualizerSettings
  settings_version : ℕ

/-- Rust's `f32::clamp(lo, hi)` on non-NaN inputs. -/
def clamp (v lo hi : ℝ) : ℝ :=
  if v < lo then lo else if v > hi then hi else v

/-- One iteration of the command match in the audio thread loop in audio.rs
(lines 99-249). `decode_ok` models the combined outcome of `File::open` and
`Decoder::new` for the `Play` command (`false` means one of them failed, in
which case the code only logs); `now` is the current `Instant`. Lock
acquisitions are assumed to succeed. -/
def processCommand (st : AudioThread) (cmd : AudioCommand) (decode_ok : Bool)
    (now : ℕ) : AudioThread :=
  match cmd with
  | AudioCommand.Play _ =>
    let st₁ := { st with current_sink := none }
    if decode_ok then
      { st₁ with
        current_sink := some
          { volume := st₁.current_volume, speed := st₁.current_speed, paused := false }
        playback_start := some now
        paused_position_ms := 0
        preloaded_path := none
        is_playing := true
        is_paused := false
        position_ms := 0 }
    else
      st₁
  | AudioCommand.Pause =>
    match st.current_sink with
    | none => st
    | some sink =>
      if sink.paused then
        { st with
          playback_start := some now
          current_sink := some { sink with paused := false }
          is_paused := false }
      else
        let extra := match st.playback_start with
          | some start => now - start
          | none => 0
        { st with
          paused_position_ms := st.paused_position_ms + extra
          current_sink := some { sink with paused := true }
          is_paused := true }
  | AudioCommand.Stop =>
    { st with
      current_sink := none
      playback_start := none
      paused_position_ms := 0
      is_playing := false
      is_paused := false
      position_ms := 0 }
  | AudioCommand.SetVolume volume =>
    let cv := clamp volume 0 1
    { st with
      current_volume := cv
      current_sink := st.current_sink.map (fun sink => { sink with volume := cv }) }
  | AudioCommand.Seek position_secs =>
    match st.current_sink with
    | none => st
    | some _ =>
      let p := ⌊position_secs * 1000⌋₊
      { st with
        paused_position_ms := p
        playback_start := some now
        position_ms := p }
  | AudioCommand.SetSpeed speed =>
    let cs := clamp speed 0.25 4
    { st with
      current_speed := cs
      current_sink := st.current_sink.map (fun sink => { sink with speed := cs }) }
  | AudioCommand.PreloadNext path =>
    { st with preloaded_path := some path }
  | AudioCommand.SetEqBand band gain_db =>
    let settings :=
      if h : band < 5 then
        { st.eq_settings with
          bands := Function.update st.eq_settings.bands ⟨band, h⟩
            { st.eq_settings.bands ⟨band, h⟩ with gain_db := clamp gain_db (-12) 12 }
          preset_name := "Custom" }
      else
        st.eq_settings
    { st with eq_settings := settings, settings_version := st.settings_version + 1 }
  | AudioCommand.SetEqEnabled enabled =>
    { st with
      eq_settings := { st.eq_settings with enabled := enabled }
      settings_version := st.settings_version + 1 }
  | AudioCommand.SetEqPreset bands preamp name =>
    { st with
      eq_settings := { st.eq_settings with
        bands := fun i => { st.eq_settings.bands i with gain_db := bands i }
        preamp_db := preamp
        preset_name := name }
      settings_version := st.settings_version + 1 }
  | AudioCommand.SetEqPreamp preamp_db =>
    { st with
      eq_settings := { st.eq_settings with preamp_db := clamp preamp_db (-12) 12 }
      settings_version := st.settings_version + 1 }

/-- `AudioController::get_eq_settings` in audio.rs: a snapshot clone of the
RwLock-guarded settings. -/
def get_eq_settings (st : AudioThread) : EqualizerSettings :=
  st.eq_settings

/-! Concrete states used by counterexamples and witnesses. -/

/-- A concrete sink that is currently playing. -/
def sinkA : Sink := { volume := 1, speed := 1, paused := false }

/-- A concrete audio-thread state in which `sinkA` is playing at 1234 ms. -/
def stPlaying : AudioThread :=
  { current_sink := some sinkA
    playback_start := some 0
    paused_position_ms := 0
    current_volume := 1
    current_speed := 1
    preloaded_path := none
    is_playing := true
    is_paused := false
    position_ms := 1234
    eq_settings := EqualizerSettings.default
    settings_version := 7 }

/-- A concrete equalizer source whose band-0 filter memory is nonzero. -/
def eqDirty : EqualizerSource :=
  { EqualizerSource.new 2 44100 EqualizerSettings.default 0 with
    states := fun _ _ => { x1 := 1, x2 := 0, y1 := 0, y2 := 0 } }

/-- Default settings with the preamp raised to +20 dB. -/
def settingsPreamp20 : EqualizerSettings :=
  { EqualizerSettings.default with preamp_db := 20 }

/-- Default settings with the equalizer disabled. -/
def settingsDisabled : EqualizerSettings :=
  { EqualizerSettings.default with enabled := false }

end

/-! Helper lemmas. -/

/-- The soft clip evaluated at 2. -/
lemma softClip_two : softClip 2 = 1 - Real.exp (-1) * 0.5 := by
  rw [softClip, if_pos (by norm_num : (2 : ℝ) > 1)]
  norm_num

/-- The soft clip leaves values in [-1, 1] unchanged. -/
lemma softClip_eq_self (v : ℝ) (h : |v| ≤ 1) : softClip v = v := by
  obtain ⟨hlo, hhi⟩ := abs_le.mp h
  rw [softClip, if_neg (not_lt.mpr hhi), if_neg (not_lt.mpr hlo)]

/-- A 0 dB linear preamp is unit gain. -/
lemma db_to_linear_zero : EqualizerSource.db_to_linear 0 = 1 := by
  simp [EqualizerSource.db_to_linear]

/-- The identity biquad emits its input unchanged for any filter memory. -/
lemma process_identity (st : BiquadState) (v : ℝ) :
    (st.process BiquadCoeffs.identity v).1 = v := by
  simp [BiquadState.process, BiquadCoeffs.identity]

/-- A cascade of identity biquads emits its input unchanged. -/
lemma runBands_const_identity (l : List (Fin 5)) (sts : Fin 5 → BiquadState)
    (v : ℝ) :
    (runBands (fun _ => BiquadCoeffs.identity) l sts v).1 = v := by
  induction l generalizing sts v with
  | nil => rfl
  | cons i rest ih =>
    simp only [runBands]
    rw [ih]
    exact process_identity (sts i) v

/-- When every band gain is 0 dB, `compute_coefficients` yields the identity
biquad for every band (the |gain| > 0.01 threshold is not met). -/
lemma compute_coefficients_gain0 (settings : EqualizerSettings) (sr : ℕ)
    (hg : ∀ i, (settings.bands i).gain_db = 0) :
    EqualizerSource.compute_coefficients settings sr
      = fun _ => BiquadCoeffs.identity := by
  funext i
  simp only [EqualizerSource.compute_coefficients]
  rw [if_neg]
  rintro ⟨-, habs⟩
  rw [hg i] at habs
  norm_num at habs

/-- `maybe_update_coefficients` never changes the channel counter. -/
lemma maybe_update_current_channel (settings : EqualizerSettings) (version : ℕ)
    (st : EqualizerSource) :
    (EqualizerSource.maybe_update_coefficients settings version st).current_channel
      = st.current_channel := by
  unfold EqualizerSource.maybe_update_coefficients
  split
  · dsimp only
    split <;> rfl
  · rfl

/-- If the cached coefficients already agree with the settings,
`maybe_update_coefficients` leaves them (semantically) at that value. -/
lemma maybe_update_coeffs (settings : EqualizerSettings) (version : ℕ)
    (st : EqualizerSource)
    (hc : st.coeffs = EqualizerSource.compute_coefficients settings st.sample_rate) :
    (EqualizerSource.maybe_update_coefficients settings version st).coeffs
      = EqualizerSource.compute_coefficients settings st.sample_rate := by
  unfold EqualizerSource.maybe_update_coefficients
  split
  · dsimp only
    split <;> rfl
  · exact hc

/-- If the cached linear preamp already agrees with the settings,
`maybe_update_coefficients` leaves it (semantically) at that value. -/
lemma maybe_update_preamp (settings : EqualizerSettings) (version : ℕ)
    (st : EqualizerSource)
    (hp : st.preamp_linear = EqualizerSource.db_to_linear settings.preamp_db) :
    (EqualizerSource.maybe_update_coefficients settings version st).preamp_linear
      = EqualizerSource.db_to_linear settings.preamp_db := by
  unfold EqualizerSource.maybe_update_coefficients
  split
  · dsimp only
    split <;> rfl
  · exact hp

/-- The visualizer block does not touch the EQ coefficients. -/
lemma visAnalyze_coeffs (self : EqualizerSource) (g : Fin 10 → ℝ) (v : ℝ) :
    (self.visAnalyze g v).1.coeffs = self.coeffs := by
  unfold EqualizerSource.visAnalyze
  dsimp only
  split <;> rfl

/-- The visualizer block does not touch the cached preamp. -/
lemma visAnalyze_preamp (self : EqualizerSource) (g : Fin 10 → ℝ) (v : ℝ) :
    (self.visAnalyze g v).1.preamp_linear = self.preamp_linear := by
  unfold EqualizerSource.visAnalyze
  dsimp only
  split <;> rfl

/-- With the EQ enabled and every band at 0 dB, one `next` step emits the
preamp-scaled, soft-clipped input sample, whatever the filter memory holds. -/
lemma next_gain0 (settings : EqualizerSettings) (version : ℕ)
    (st : EqualizerSource) (g : Fin 10 → ℝ) (sample : ℝ)
    (hen : settings.enabled = true)
    (hg : ∀ i, (settings.bands i).gain_db = 0)
    (hc : st.coeffs = EqualizerSource.compute_coefficients settings st.sample_rate)
    (hp : st.preamp_linear = EqualizerSource.db_to_linear settings.preamp_db) :
    (EqualizerSource.next settings version st g (some sample)).1
      = some (softClip (sample * EqualizerSource.db_to_linear settings.preamp_db)) := by
  have hid : EqualizerSource.compute_coefficients settings st.sample_rate
      = fun _ => BiquadCoeffs.identity :=
    compute_coefficients_gain0 settings st.sample_rate hg
  by_cases h0 : st.current_channel = 0
  · have hcc : (EqualizerSource.maybe_update_coefficients settings version st).coeffs
        = fun _ => BiquadCoeffs.identity := by
      rw [maybe_update_coeffs settings version st hc, hid]
    have hpp : (EqualizerSource.maybe_update_coefficients settings version
        st).preamp_linear = EqualizerSource.db_to_linear settings.preamp_db :=
      maybe_update_preamp settings version st hp
    simp [EqualizerSource.next, h0, hen, maybe_update_current_channel, hcc, hpp,
      visAnalyze_coeffs, visAnalyze_preamp, runBands_const_identity]
  · simp [EqualizerSource.next, h0, hen, hc, hid, hp, runBands_const_identity]

/-! Claim theorems. -/

/-- C3, counterexample: the claim places softClip 2 strictly between 1.0 and
the curve's asymptotic bound, but the curve 1 - exp(-value+1)·0.5 has
asymptotic bound 1.0 and its value at 2 is strictly below 1.0, so the claimed
interval is empty and in particular the output is not above 1.0. -/
theorem softClip_two_below_one :
    softClip 2 < 1 ∧ ¬ (1 < softClip 2 ∧ softClip 2 < 1) := by
  have h := softClip_two
  have hp : 0 < Real.exp (-1) := Real.exp_pos (-1)
  constructor
  · rw [h]; nlinarith
  · rintro ⟨h1, h2⟩; linarith

/-- C3, amended: an input of exactly 1.0 passes through the soft clip
unchanged; an input of 2.0 maps to 1 - exp(-1)·0.5, which lies strictly
between 0.5 and the curve's asymptotic bound 1.0 (strictly below the bound,
not above 1.0); the negative side is symmetric. -/
theorem softClip_boundary :
    softClip 1 = 1 ∧
    softClip 2 = 1 - Real.exp (-1) * 0.5 ∧
    0.5 < softClip 2 ∧ softClip 2 < 1 ∧
    softClip (-2) = -(1 - Real.exp (-1) * 0.5) := by
  have h2 := softClip_two
  have hp : 0 < Real.exp (-1) := Real.exp_pos (-1)
  have hl : Real.exp (-1) < 1 := Real.exp_lt_one_iff.mpr (by norm_num)
  refine ⟨?_, h2, ?_, ?_, ?_⟩
  · rw [softClip, if_neg (by norm_num), if_neg (by norm_num)]
  · rw [h2]; nlinarith
  · rw [h2]; nlinarith
  · rw [softClip, if_neg (by norm_num), if_pos (by norm_num : (-2 : ℝ) < -1)]
    norm_num
    linarith

/-- C1, counterexample: before the command a sink is playing, but after a
`Play` whose open/decode fails the sink is gone — the code stops and discards
the current sink before attempting to open the file, so the previously playing
sink does not keep playing. -/
theorem play_decode_failure_stops_sink :
    stPlaying.current_sink = some sinkA ∧ sinkA.paused = false ∧
    (processCommand stPlaying (AudioCommand.Play "missing.mp3") false 0).current_sink
      = none :=
  ⟨rfl, rfl, rfl⟩

/-- C1, amended: for every `Play(path)` command whose file open or decode
fails, the shared state atomics `is_playing`, `is_paused` and `position_ms`
retain the values they had before the command, as do the thread locals
(`paused_position_ms`, `playback_start`, volume, speed, preloaded path, EQ
settings); the failure is only logged. However the previously playing sink
does not keep playing: it is stopped and discarded before the open/decode
attempt, leaving `current_sink` empty. -/
theorem play_decode_failure_effects (st : AudioThread) (path : String) (now : ℕ) :
    (processCommand st (AudioCommand.Play path) false now).is_playing = st.is_playing ∧
    (processCommand st (AudioCommand.Play path) false now).is_paused = st.is_paused ∧
    (processCommand st (AudioCommand.Play path) false now).position_ms = st.position_ms ∧
    (processCommand st (AudioCommand.Play path) false now).current_sink = none ∧
    (processCommand st (AudioCommand.Play path) false now).paused_position_ms
      = st.paused_position_ms ∧
    (processCommand st (AudioCommand.Play path) false now).playback_start
      = st.playback_start ∧
    (processCommand st (AudioCommand.Play path) false now).current_volume
      = st.current_volume ∧
    (processCommand st (AudioCommand.Play path) false now).current_speed
      = st.current_speed ∧
    (processCommand st (AudioCommand.Play path) false now).preloaded_path
      = st.preloaded_path ∧
    (processCommand st (AudioCommand.Play path) false now).eq_settings
      = st.eq_settings :=
  ⟨rfl, rfl, rfl, rfl, rfl, rfl, rfl, rfl, rfl, rfl⟩

/-- C2, counterexample: a source with nonzero band-0 filter memory, after a
seek whose inner seek errors, still has that memory — `try_seek` does not
zero the filter memory when the inner seek fails, because the `?` operator
returns before the resets run. -/
theorem try_seek_error_keeps_memory :
    (eqDirty.try_seek (Except.error SeekError.err)).2.states 0 0 = eqDirty.states 0 0 ∧
    ((eqDirty.try_seek (Except.error SeekError.err)).2.states 0 0).x1 = 1 ∧
    BiquadState.zero.x1 = 0 ∧ (1 : ℝ) ≠ 0 :=
  ⟨rfl, rfl, rfl, one_ne_zero⟩

/-- C2, amended: `EqualizerSource::try_seek` forwards the request to the inner
source; when the inner seek succeeds it zeroes all per-channel, per-band
biquad filter memory and resets the channel-interleave counter to 0 (and the
visualizer accumulators); when the inner seek returns an error, the error is
propagated and the filter state is left unchanged — the reset happens only on
success, not unconditionally. -/
theorem try_seek_reset_spec (self : EqualizerSource) :
    ((self.try_seek (Except.ok ())).1 = Except.ok () ∧
     (self.try_seek (Except.ok ())).2.states = (fun _ _ => BiquadState.zero) ∧
     (self.try_seek (Except.ok ())).2.current_channel = 0 ∧
     (self.try_seek (Except.ok ())).2.vis_states = (fun _ _ => BiquadState.zero) ∧
     (self.try_seek (Except.ok ())).2.vis_energy = (fun _ => 0) ∧
     (self.try_seek (Except.ok ())).2.vis_sample_count = 0) ∧
    ∀ e, self.try_seek (Except.error e) = (Except.error e, self) :=
  ⟨⟨rfl, rfl, rfl, rfl, rfl, rfl⟩, fun _ => rfl⟩

/-- C6: after the render thread processes `SetEqPreset{bands, preamp, name}`,
a settings snapshot read returns every band gain, the preamp and the preset
name exactly as submitted, with no clamping or other modification. -/
theorem set_eq_preset_roundtrip (st : AudioThread) (bands : Fin 5 → ℝ)
    (preamp : ℝ) (name : String) (decode_ok : Bool) (now : ℕ) :
    (∀ i, ((get_eq_settings
        (processCommand st (AudioCommand.SetEqPreset bands preamp name) decode_ok now)).bands
          i).gain_db = bands i) ∧
    (get_eq_settings
        (processCommand st (AudioCommand.SetEqPreset bands preamp name) decode_ok now)).preamp_db
      = preamp ∧
    (get_eq_settings
        (processCommand st (AudioCommand.SetEqPreset bands preamp name) decode_ok now)).preset_name
      = name :=
  ⟨fun _ => rfl, rfl, rfl⟩

/-- C8: processing `SetEqBand{band, gain_db}` with band < 5 sets that band's
gain (clamped to [-12,12]) and additionally overwrites `preset_name` to
"Custom", losing any previously applied preset name; all other bands, the
edited band's other fields, `preamp_db` and `enabled` are unchanged. -/
theorem set_eq_band_effects (st : AudioThread) (band : ℕ) (gain_db : ℝ)
    (decode_ok : Bool) (now : ℕ) (h : band < 5) :
    ((processCommand st (AudioCommand.SetEqBand band gain_db) decode_ok
        now).eq_settings.bands ⟨band, h⟩).gain_db = clamp gain_db (-12) 12 ∧
    (processCommand st (AudioCommand.SetEqBand band gain_db) decode_ok
        now).eq_settings.preset_name = "Custom" ∧
    (∀ j : Fin 5, j ≠ ⟨band, h⟩ →
      (processCommand st (AudioCommand.SetEqBand band gain_db) decode_ok
          now).eq_settings.bands j = st.eq_settings.bands j) ∧
    ((processCommand st (AudioCommand.SetEqBand band gain_db) decode_ok
        now).eq_settings.bands ⟨band, h⟩).frequency
      = (st.eq_settings.bands ⟨band, h⟩).frequency ∧
    ((processCommand st (AudioCommand.SetEqBand band gain_db) decode_ok
        now).eq_settings.bands ⟨band, h⟩).q = (st.eq_settings.bands ⟨band, h⟩).q ∧
    (processCommand st (AudioCommand.SetEqBand band gain_db) decode_ok
        now).eq_settings.preamp_db = st.eq_settings.preamp_db ∧
    (processCommand st (AudioCommand.SetEqBand band gain_db) decode_ok
        now).eq_settings.enabled = st.eq_settings.enabled := by
  simp only [processCommand]
  rw [dif_pos h]
  refine ⟨?_, rfl, ?_, ?_, ?_, rfl, rfl⟩
  · simp [Function.update_apply]
  · intro j hj
    simp [Function.update_apply, hj]
  · simp [Function.update_apply]
  · simp [Function.update_apply]

/-- Witness for C8 at band 0, gain 20. -/
theorem set_eq_band_effects_witness :
    0 < 5 ∧
    (((processCommand stPlaying (AudioCommand.SetEqBand 0 20) true
        0).eq_settings.bands ⟨0, Nat.zero_lt_succ 4⟩).gain_db = clamp 20 (-12) 12 ∧
     (processCommand stPlaying (AudioCommand.SetEqBand 0 20) true
        0).eq_settings.preset_name = "Custom" ∧
     (∀ j : Fin 5, j ≠ ⟨0, Nat.zero_lt_succ 4⟩ →
       (processCommand stPlaying (AudioCommand.SetEqBand 0 20) true
          0).eq_settings.bands j = stPlaying.eq_settings.bands j) ∧
     ((processCommand stPlaying (AudioCommand.SetEqBand 0 20) true
        0).eq_settings.bands ⟨0, Nat.zero_lt_succ 4⟩).frequency
       = (stPlaying.eq_settings.bands ⟨0, Nat.zero_lt_succ 4⟩).frequency ∧
     ((processCommand stPlaying (AudioCommand.SetEqBand 0 20) true
        0).eq_settings.bands ⟨0, Nat.zero_lt_succ 4⟩).q
       = (stPlaying.eq_settings.bands ⟨0, Nat.zero_lt_succ 4⟩).q ∧
     (processCommand stPlaying (AudioCommand.SetEqBand 0 20) true
        0).eq_settings.preamp_db = stPlaying.eq_settings.preamp_db ∧
     (processCommand stPlaying (AudioCommand.SetEqBand 0 20) true
        0).eq_settings.enabled = stPlaying.eq_settings.enabled) :=
  ⟨by decide, set_eq_band_effects stPlaying 0 20 true 0 (by decide)⟩

/-- C9: processing `SetEqBand{band, gain_db}` with band ≥ 5 leaves every field
of the settings unchanged (including `preset_name`), yet still increments the
settings version by 1; a subsequent coefficient recompute from the unchanged
settings yields the same coefficients. -/
theorem set_eq_band_out_of_range (st : AudioThread) (band : ℕ) (gain_db : ℝ)
    (decode_ok : Bool) (now : ℕ) (sr : ℕ) (h : 5 ≤ band) :
    (processCommand st (AudioCommand.SetEqBand band gain_db) decode_ok
        now).eq_settings = st.eq_settings ∧
    (processCommand st (AudioCommand.SetEqBand band gain_db) decode_ok
        now).settings_version = st.settings_version + 1 ∧
    EqualizerSource.compute_coefficients
        (processCommand st (AudioCommand.SetEqBand band gain_db) decode_ok
          now).eq_settings sr
      = EqualizerSource.compute_coefficients st.eq_settings sr := by
  have hn : ¬ band < 5 := by omega
  simp [processCommand, hn]

/-- Witness for C9 at band 5. -/
theorem set_eq_band_out_of_range_witness :
    5 ≤ 5 ∧
    ((processCommand stPlaying (AudioCommand.SetEqBand 5 3) true
        0).eq_settings = stPlaying.eq_settings ∧
     (processCommand stPlaying (AudioCommand.SetEqBand 5 3) true
        0).settings_version = stPlaying.settings_version + 1 ∧
     EqualizerSource.compute_coefficients
         (processCommand stPlaying (AudioCommand.SetEqBand 5 3) true
           0).eq_settings 44100
       = EqualizerSource.compute_coefficients stPlaying.eq_settings 44100) :=
  ⟨by decide, set_eq_band_out_of_range stPlaying 5 3 true 0 44100 (by decide)⟩

/-- C10: `SetVolume(v)` stores v clamped to [0,1] (and applies it to an
existing sink), `SetSpeed(s)` stores s clamped to [0.25,4] likewise, and a
later successful `Play` creates its sink with exactly the remembered clamped
volume and speed. -/
theorem volume_speed_clamped_and_applied (st : AudioThread) (v s : ℝ)
    (path : String) (d₁ d₂ : Bool) (n₁ n₂ n₃ : ℕ) :
    (processCommand st (AudioCommand.SetVolume v) d₁ n₁).current_volume
      = clamp v 0 1 ∧
    (processCommand st (AudioCommand.SetVolume v) d₁ n₁).current_sink
      = st.current_sink.map (fun sink => { sink with volume := clamp v 0 1 }) ∧
    (processCommand (processCommand st (AudioCommand.SetVolume v) d₁ n₁)
        (AudioCommand.SetSpeed s) d₂ n₂).current_speed = clamp s 0.25 4 ∧
    (processCommand (processCommand st (AudioCommand.SetVolume v) d₁ n₁)
        (AudioCommand.SetSpeed s) d₂ n₂).current_sink
      = (processCommand st (AudioCommand.SetVolume v) d₁ n₁).current_sink.map
          (fun sink => { sink with speed := clamp s 0.25 4 }) ∧
    (processCommand
        (processCommand (processCommand st (AudioCommand.SetVolume v) d₁ n₁)
          (AudioCommand.SetSpeed s) d₂ n₂)
        (AudioCommand.Play path) true n₃).current_sink
      = some { volume := clamp v 0 1, speed := clamp s 0.25 4, paused := false } :=
  ⟨rfl, rfl, rfl, rfl, rfl⟩

/-- C4: when the settings have `enabled = false`, `next` emits exactly the
sample pulled from the inner source, regardless of band gains, Q values,
preamp, or previously accumulated filter state; no preamp and no clipping is
applied. -/
theorem next_disabled_passthrough (settings : EqualizerSettings) (version : ℕ)
    (st : EqualizerSource) (g : Fin 10 → ℝ) (sample : ℝ)
    (hen : settings.enabled = false) :
    (EqualizerSource.next settings version st g (some sample)).1 = some sample := by
  simp [EqualizerSource.next, hen]

/-- Witness for C4: disabled settings, a fresh source, sample 0.25. -/
theorem next_disabled_passthrough_witness :
    settingsDisabled.enabled = false ∧
    (EqualizerSource.next settingsDisabled 0
        (EqualizerSource.new 2 44100 settingsDisabled 0) (fun _ => 0)
        (some 0.25)).1 = some 0.25 :=
  ⟨rfl, next_disabled_passthrough settingsDisabled 0
    (EqualizerSource.new 2 44100 settingsDisabled 0) (fun _ => 0) 0.25 rfl⟩

/-- C5, counterexample: with the EQ enabled, every band at 0 dB and the preamp
at +20 dB (linear gain 10), the input 1/2 is scaled to 5 and then soft-clipped
below 1, so the output falls short of input × preamp by more than 3 — not
within floating-point epsilon. The claim as stated (output always equals
input × 10^(preamp_db/20)) is therefore false. -/
theorem eq_flat_clipped_counterexample :
    (EqualizerSource.next settingsPreamp20 0
        (EqualizerSource.new 2 44100 settingsPreamp20 0) (fun _ => 0)
        (some (1/2))).1
      = some (softClip ((1/2) * EqualizerSource.db_to_linear settingsPreamp20.preamp_db)) ∧
    EqualizerSource.db_to_linear settingsPreamp20.preamp_db = 10 ∧
    (1/2 : ℝ) * 10 - softClip ((1/2) * 10) > 3 := by
  have h10 : EqualizerSource.db_to_linear settingsPreamp20.preamp_db = 10 := by
    have h1 : settingsPreamp20.preamp_db = (20 : ℝ) := rfl
    rw [h1, EqualizerSource.db_to_linear, show (20 : ℝ) / 20 = 1 by norm_num,
      Real.rpow_one]
  refine ⟨?_, h10, ?_⟩
  · exact next_gain0 settingsPreamp20 0
      (EqualizerSource.new 2 44100 settingsPreamp20 0) (fun _ => 0) (1/2) rfl
      (by intro i; fin_cases i <;> rfl) rfl rfl
  · have hsc : softClip 5 = 1 - Real.exp (-4) * 0.5 := by
      rw [softClip, if_pos (by norm_num : (5 : ℝ) > 1)]
      norm_num
    have hp : 0 < Real.exp (-4) := Real.exp_pos _
    rw [show (1/2 : ℝ) * 10 = 5 by norm_num, hsc]
    linarith

/-- C5, amended: when the EQ is enabled, every band gain is 0 dB, and the
cached coefficients and preamp agree with the settings, each output sample
equals the input sample times the linear preamp gain 10^(preamp_db/20) —
every 0 dB band's coefficient set is the identity biquad, which passes the
value through unchanged — provided the preamp-scaled value lies within
[-1, 1]; outside that range the soft-clip stage applies. -/
theorem eq_flat_bands_preamp_only (settings : EqualizerSettings) (version : ℕ)
    (st : EqualizerSource) (g : Fin 10 → ℝ) (sample : ℝ)
    (hen : settings.enabled = true)
    (hg : ∀ i, (settings.bands i).gain_db = 0)
    (hc : st.coeffs = EqualizerSource.compute_coefficients settings st.sample_rate)
    (hp : st.preamp_linear = EqualizerSource.db_to_linear settings.preamp_db)
    (hb : |sample * EqualizerSource.db_to_linear settings.preamp_db| ≤ 1) :
    (EqualizerSource.next settings version st g (some sample)).1
      = some (sample * EqualizerSource.db_to_linear settings.preamp_db) := by
  rw [next_gain0 settings version st g sample hen hg hc hp,
    softClip_eq_self _ hb]

/-- Witness for C5 at the default (flat, 0 dB preamp) settings, sample 1/2. -/
theorem eq_flat_bands_preamp_only_witness :
    EqualizerSettings.default.enabled = true ∧
    (∀ i, (EqualizerSettings.default.bands i).gain_db = 0) ∧
    (EqualizerSource.new 2 44100 EqualizerSettings.default 0).coeffs
      = EqualizerSource.compute_coefficients EqualizerSettings.default
          (EqualizerSource.new 2 44100 EqualizerSettings.default 0).sample_rate ∧
    (EqualizerSource.new 2 44100 EqualizerSettings.default 0).preamp_linear
      = EqualizerSource.db_to_linear EqualizerSettings.default.preamp_db ∧
    |(1/2 : ℝ) * EqualizerSource.db_to_linear EqualizerSettings.default.preamp_db| ≤ 1 ∧
    (EqualizerSource.next EqualizerSettings.default 0
        (EqualizerSource.new 2 44100 EqualizerSettings.default 0) (fun _ => 0)
        (some (1/2))).1
      = some ((1/2 : ℝ) * EqualizerSource.db_to_linear EqualizerSettings.default.preamp_db) := by
  have hb : |(1/2 : ℝ) * EqualizerSource.db_to_linear
      EqualizerSettings.default.preamp_db| ≤ 1 := by
    rw [show EqualizerSettings.default.preamp_db = (0 : ℝ) from rfl,
      db_to_linear_zero, mul_one, abs_of_nonneg (by norm_num : (0 : ℝ) ≤ 1/2)]
    norm_num
  exact ⟨rfl, by intro i; fin_cases i <;> rfl, rfl, rfl, hb,
    eq_flat_bands_preamp_only EqualizerSettings.default 0
      (EqualizerSource.new 2 44100 EqualizerSettings.default 0) (fun _ => 0)
      (1/2) rfl (by intro i; fin_cases i <;> rfl) rfl rfl hb⟩

/-- C7: one step of the visualizer analysis stage preserves the invariant
that every accumulated band energy is non-negative and every level readable
through the accessor lies in [0,1]: a published level is
min(sqrt(energy/count) · 8, 1), which is non-negative (energy is a sum of
squared filter outputs) and capped at 1. -/
theorem vis_levels_in_unit_interval (st : EqualizerSource) (g : Fin 10 → ℝ)
    (v : ℝ)
    (he : ∀ i, 0 ≤ st.vis_energy i)
    (hg : ∀ i, 0 ≤ get_visualizer_levels g i ∧ get_visualizer_levels g i ≤ 1) :
    (∀ i, 0 ≤ (st.visAnalyze g v).1.vis_energy i) ∧
    (∀ i, 0 ≤ get_visualizer_levels (st.visAnalyze g v).2 i ∧
      get_visualizer_levels (st.visAnalyze g v).2 i ≤ 1) := by
  unfold EqualizerSource.visAnalyze get_visualizer_levels
  unfold get_visualizer_levels at hg
  dsimp only
  split
  · refine ⟨fun i => le_refl 0, fun i => ⟨?_, min_le_right _ _⟩⟩
    exact le_min (mul_nonneg (Real.sqrt_nonneg _) (by norm_num)) zero_le_one
  · exact ⟨fun i => add_nonneg (he i) (mul_self_nonneg _), hg⟩

/-- Witness for C7: a fresh source, all-zero levels, sample 3/10. -/
theorem vis_levels_in_unit_interval_witness :
    (∀ i, 0 ≤ (EqualizerSource.new 2 44100 EqualizerSettings.default 0).vis_energy i) ∧
    (∀ i : Fin 10, 0 ≤ get_visualizer_levels (fun _ => 0) i ∧
      get_visualizer_levels (fun _ => 0) i ≤ 1) ∧
    (∀ i, 0 ≤ get_visualizer_levels
        ((EqualizerSource.new 2 44100 EqualizerSettings.default 0).visAnalyze
          (fun _ => 0) (3/10)).2 i ∧
      get_visualizer_levels
        ((EqualizerSource.new 2 44100 EqualizerSettings.default 0).visAnalyze
          (fun _ => 0) (3/10)).2 i ≤ 1) := by
  refine ⟨fun i => le_refl 0, fun i => ⟨le_refl 0, zero_le_one⟩, ?_⟩
  exact (vis_levels_in_unit_interval
    (EqualizerSource.new 2 44100 EqualizerSettings.default 0) (fun _ => 0) (3/10)
    (fun i => le_refl 0) (fun i => ⟨le_refl 0, zero_le_one⟩)).2

end Osmp
